import Mathlib

/-!
Verification of the RRS terminal mining core: the capability cache
(`src/lib/capability.ts`), the transaction executor with its failure
classification (`src/lib/contract.ts`, `destroyBlock`) and the mining
loop orchestrator (`mineOnce` / `startMining`).

The TypeScript is embedded shallowly: the global capability cache becomes
explicit state passing, timestamps and the results of network calls become
oracle parameters, callbacks become an emitted event list, and thrown
exceptions become `Except` / `Option` values.
-/

/- ### String helpers
JS `String.prototype.toLowerCase`, `includes` and `substring(0, n)` for the
ASCII revert messages the classifier handles. Implemented over `List Char`
so that they reduce by kernel computation. -/

/-- Lowercase every character (JS `toLowerCase` on the ASCII messages used here). -/
def lowerStr (s : String) : String :=
  String.mk (s.data.map Char.toLower)

/-- First `n` characters (JS `substring(0, n)`). -/
def strTake (s : String) (n : Nat) : String :=
  String.mk (s.data.take n)

/-- Does `pat` occur at the head of `text`? -/
def headMatch : List Char → List Char → Bool
  | [], _ => true
  | _ :: _, [] => false
  | p :: ps, t :: ts => p == t && headMatch ps ts

/-- Does `pat` occur anywhere in `text`? -/
def occursIn (pat : List Char) : List Char → Bool
  | [] => headMatch pat []
  | t :: ts => headMatch pat (t :: ts) || occursIn pat ts

/-- JS `text.includes(pat)`. -/
def containsSub (text pat : String) : Bool :=
  occursIn pat.data text.data

/- ### Data model (`src/types.ts`) -/

/-- Game constants from `src/types.ts`. -/
def CONTAINERS_PER_LAYER : Nat := 1572864

/-- Tiles per container from `src/types.ts`. -/
def TILES_PER_CONTAINER : Nat := 1024

/-- Capability struct matching the Solidity struct (field `budget` is a JS
number; timestamps are converted to JS numbers before use, so they are
modelled as `Int`). -/
structure Capability where
  wallet : String
  allowedModes : Nat
  nonce : Nat
  issuedAt : Int
  expiresAt : Int
  budget : Int
deriving DecidableEq, Repr

/-- Capability plus its signature, as returned by the capability endpoint. -/
structure CapabilityBundle where
  capability : Capability
  signature : String
deriving DecidableEq, Repr

/-- The module-level cache entry of `capability.ts`. -/
structure CachedCapability where
  bundle : CapabilityBundle
  remainingBudget : Int
  fetchedAt : Int
deriving DecidableEq, Repr

/-- The module-level mutable `capabilityCache` variable (`null` = `none`). -/
abbrev CapCache := Option CachedCapability

/- ### Capability cache operations (`src/lib/capability.ts`) -/

/-- Source `isCacheValid(cost)`: the cached capability is usable when it exists,
is not within 30 seconds of expiry, and has `remainingBudget >= cost`.
`now` is `Math.floor(Date.now() / 1000)` passed explicitly. -/
def isCacheValid (cache : CapCache) (now : Int) (cost : Int) : Bool :=
  match cache with
  | none => false
  | some c =>
    if now ≥ c.bundle.capability.expiresAt - 30 then false
    else if c.remainingBudget < cost then false
    else true

/-- Result of one `getCapability` call: the bundle handed back, the new
cache state, and whether a network fetch was performed. -/
structure CapResult where
  bundle : CapabilityBundle
  cache : CapCache
  fetched : Bool
deriving DecidableEq, Repr

/-- Source `getCapability(networkConfig, wallet, droneId, cost)`: serve from the
cache when `isCacheValid(cost)`, decrementing the local budget; otherwise
fetch (`fresh` is the bundle the endpoint returns) and install a new entry
with `remainingBudget = budget - cost`. -/
def getCapability (cache : CapCache) (now : Int) (fresh : CapabilityBundle)
    (cost : Int) : CapResult :=
  match cache with
  | some c =>
    if isCacheValid (some c) now cost then
      ⟨c.bundle, some { c with remainingBudget := c.remainingBudget - cost }, false⟩
    else
      ⟨fresh, some ⟨fresh, fresh.capability.budget - cost, now⟩, true⟩
  | none => ⟨fresh, some ⟨fresh, fresh.capability.budget - cost, now⟩, true⟩

/-- Source `getRemainingBudget()`: local budget of the cache entry, `0` when empty. -/
def getRemainingBudget (cache : CapCache) : Int :=
  match cache with
  | some c => c.remainingBudget
  | none => 0

/-- Source `clearCapabilityCache()`: unconditionally drop the entry. -/
def clearCapabilityCache (_cache : CapCache) : CapCache :=
  none

/-- Source `needsCapabilityRefresh(cost)`: read-only mirror of the `acquire`
validity check; returns the flag together with the (unchanged) cache. -/
def needsCapabilityRefresh (cache : CapCache) (now : Int) (cost : Int) :
    Bool × CapCache :=
  (!(isCacheValid cache now cost), cache)

/- ### Container decomposition (miner module) -/

/-- Hierarchical location of a container. -/
structure ContainerLoc where
  face : Nat
  sector : Nat
  region : Nat
  container : Nat
deriving DecidableEq, Repr

/-- Source `decomposeContainer(containerId)`: fixed-radix decomposition
container / region / sector / face with radixes 4, 256, 256. -/
def decomposeContainer (containerId : Nat) : ContainerLoc :=
  let CONTAINERS_PER_REGION := 4
  let REGIONS_PER_SECTOR := 256
  let SECTORS_PER_FACE := 256
  let container := containerId % CONTAINERS_PER_REGION
  let remaining1 := containerId / CONTAINERS_PER_REGION
  let region := remaining1 % REGIONS_PER_SECTOR
  let remaining2 := remaining1 / REGIONS_PER_SECTOR
  let sector := remaining2 % SECTORS_PER_FACE
  let face := remaining2 / SECTORS_PER_FACE
  ⟨face, sector, region, container⟩

/- ### Sample values used by witness theorems -/

/-- A sample capability: issued at 1000, expires at 2000, budget 10. -/
def sampleCap : Capability :=
  ⟨"0x1111", 1, 7, 1000, 2000, 10⟩

/-- Sample bundle wrapping `sampleCap`. -/
def sampleBundle : CapabilityBundle :=
  ⟨sampleCap, "0xsig1"⟩

/-- A second sample capability used as a fresh fetch result. -/
def sampleBundle2 : CapabilityBundle :=
  ⟨⟨"0x2222", 1, 8, 1500, 2500, 20⟩, "0xsig2"⟩

/-- A sample cache entry holding `sampleBundle` with 5 budget left. -/
def sampleEntry : CachedCapability :=
  ⟨sampleBundle, 5, 1000⟩

/- ### Transaction executor (`src/lib/contract.ts`, `destroyBlock`) -/

/-- Result record of a destroy attempt (`DestroyResult` in `contract.ts`). -/
structure DestroyResult where
  success : Bool
  txHash : Option String := none
  error : Option String := none
  alreadyDestroyed : Bool := false
deriving DecidableEq, Repr

/-- Characters matched by the `[:\s]` class of the revert-reason regex
(ASCII portion, which covers the messages the chain client produces). -/
def isWsColon (c : Char) : Bool :=
  c == ':' || c == ' ' || c == '\t' || c == '\n' || c == '\r' ||
    c == '\x0b' || c == '\x0c'

/-- Match `pat` (given lowercase) against the head of `text`
case-insensitively; return the rest of `text` on success. -/
def stripPatLower : List Char → List Char → Option (List Char)
  | [], ts => some ts
  | _ :: _, [] => none
  | p :: ps, t :: ts => if p == t.toLower then stripPatLower ps ts else none

/-- The `"?([^"]+)"?` tail of the revert-reason regex at `r`: optionally
consume one quote, then capture a non-empty run of non-quote characters. -/
def tryCapture (r : List Char) : Option (List Char) :=
  match r with
  | '"' :: r1 =>
    let cap := r1.takeWhile (fun c => c != '"')
    if cap.isEmpty then none else some cap
  | _ =>
    let cap := r.takeWhile (fun c => c != '"')
    if cap.isEmpty then none else some cap

/-- The `[:\s]+"?([^"]+)"?` part of the regex applied after the keyword,
with the greedy-then-backtrack behaviour of the `[:\s]+` quantifier: try
the capture after the whole separator run, else back off one separator
character (which then itself starts the capture). -/
def matchReasonTail (r : List Char) : Option (List Char) :=
  let ws := r.takeWhile isWsColon
  let rest := r.dropWhile isWsColon
  if ws.isEmpty then none
  else
    match tryCapture rest with
    | some cap => some cap
    | none =>
      if ws.length ≥ 2 then tryCapture (ws.drop (ws.length - 1) ++ rest)
      else none

/-- The literal keyword of the revert-reason regex. -/
def revertKeyword : List Char := "reverted with reason".data

/-- Leftmost match of `reverted with reason[:\s]+"?([^"]+)"?` (flag `i`):
scan positions left to right and return the first full match's capture. -/
def findRevertAux : List Char → Option (List Char)
  | [] => none
  | t :: ts =>
    match stripPatLower revertKeyword (t :: ts) with
    | some rest =>
      match matchReasonTail rest with
      | some cap => some cap
      | none => findRevertAux ts
    | none => findRevertAux ts

/-- Source `errorMessage.match(/reverted with reason[:\s]+"?([^"]+)"?/i)`:
the captured revert reason, if the regex matches. -/
def findRevertReason (msg : String) : Option String :=
  (findRevertAux msg.data).map String.mk

/-- The catch block of the dry-run simulation inside `destroyBlock`
(lines 399-437 of `contract.ts`): classify `simError.message`. -/
def classifySimError (simMsg : String) : DestroyResult :=
  let lowerSim := lowerStr simMsg
  if containsSub lowerSim "already destroyed" then
    { success := false, error := some "Already destroyed", alreadyDestroyed := true }
  else if containsSub lowerSim "capability expired" then
    { success := false, error := some "Capability expired" }
  else if containsSub lowerSim "capability exhausted" then
    { success := false, error := some "Capability exhausted (on-chain)" }
  else if containsSub lowerSim "budget too low" then
    { success := false, error := some "Capability budget too low (cap.budget < cost)" }
  else if containsSub lowerSim "not authorized" then
    { success := false, error := some "Not authorized for license" }
  else if containsSub lowerSim "invalid capability signature" then
    { success := false, error := some "Invalid capability signature" }
  else if containsSub lowerSim "battery depleted" then
    { success := false, error := some "Battery depleted - shift ended" }
  else
    { success := false, error := some ("Sim: " ++ strTake simMsg 150) }

/-- The outer catch block of `destroyBlock` (lines 473-525 of
`contract.ts`): classify errors thrown by the submission or the
receipt wait. -/
def classifyCatchError (errorMessage : String) : DestroyResult :=
  let lowerError := lowerStr errorMessage
  if containsSub lowerError "already destroyed" || containsSub lowerError "tile already" then
    { success := false, error := some "Already destroyed", alreadyDestroyed := true }
  else if containsSub lowerError "capability expired" then
    { success := false, error := some "Capability expired" }
  else if containsSub lowerError "capability exhausted" || containsSub lowerError "budget" then
    { success := false, error := some "Capability budget exhausted" }
  else if containsSub lowerError "not authorized" then
    { success := false, error := some "Not authorized for drone" }
  else if containsSub lowerError "invalid container" then
    { success := false, error := some "Invalid container ID" }
  else if containsSub lowerError "invalid tile" then
    { success := false, error := some "Invalid tile ID" }
  else if containsSub lowerError "jackpot fee" then
    { success := false, error := some "Jackpot fee too low" }
  else
    match findRevertReason errorMessage with
    | some reason =>
      if containsSub (lowerStr reason) "already" then
        { success := false, error := some reason, alreadyDestroyed := true }
      else
        { success := false, error := some reason }
    | none => { success := false, error := some errorMessage }

/-- Receipt status reported by `waitForTransactionReceipt`. -/
inductive ReceiptStatus
  | success
  | reverted
deriving DecidableEq, Repr

/-- Source `destroyBlock`: two-phase execution. `sim`, `submit` and `receipt` are
the outcomes of the simulation call, the `writeContract` submission and
the receipt wait (`Except.error` = the call threw). The returned `Bool`
records whether the `writeContract` submission was invoked. -/
def destroyBlock (sim : Except String Unit) (submit : Except String String)
    (receipt : Except String ReceiptStatus) : DestroyResult × Bool :=
  match sim with
  | .error simMsg => (classifySimError simMsg, false)
  | .ok _ =>
    match submit with
    | .error m => (classifyCatchError m, true)
    | .ok hash =>
      match receipt with
      | .ok .success => ({ success := true, txHash := some hash }, true)
      | .ok .reverted =>
        ({ success := false, txHash := some hash,
           error := some "Transaction reverted on-chain" }, true)
      | .error m => (classifyCatchError m, true)

/- ### Table-driven view of the two classifiers -/

/-- First-match lookup in a priority-ordered substring table: `lmsg` is the
lowercased message, each row lists the substrings that select it. -/
def tableClassify (rows : List (List String × DestroyResult))
    (dflt : DestroyResult) (lmsg : String) : DestroyResult :=
  match rows with
  | [] => dflt
  | (pats, r) :: rest =>
    if pats.any (fun p => containsSub lmsg p) then r
    else tableClassify rest dflt lmsg

/-- The substring rows actually checked by the dry-run simulation phase. -/
def simFailureTable : List (List String × DestroyResult) :=
  [ (["already destroyed"],
      { success := false, error := some "Already destroyed", alreadyDestroyed := true }),
    (["capability expired"],
      { success := false, error := some "Capability expired" }),
    (["capability exhausted"],
      { success := false, error := some "Capability exhausted (on-chain)" }),
    (["budget too low"],
      { success := false, error := some "Capability budget too low (cap.budget < cost)" }),
    (["not authorized"],
      { success := false, error := some "Not authorized for license" }),
    (["invalid capability signature"],
      { success := false, error := some "Invalid capability signature" }),
    (["battery depleted"],
      { success := false, error := some "Battery depleted - shift ended" }) ]

/-- Unknown-failure fallback of the dry-run phase: truncated `Sim:` message. -/
def simFallback (msg : String) : DestroyResult :=
  { success := false, error := some ("Sim: " ++ strTake msg 150) }

/-- The substring rows actually checked by the submission/receipt-wait phase. -/
def catchFailureTable : List (List String × DestroyResult) :=
  [ (["already destroyed", "tile already"],
      { success := false, error := some "Already destroyed", alreadyDestroyed := true }),
    (["capability expired"],
      { success := false, error := some "Capability expired" }),
    (["capability exhausted", "budget"],
      { success := false, error := some "Capability budget exhausted" }),
    (["not authorized"],
      { success := false, error := some "Not authorized for drone" }),
    (["invalid container"],
      { success := false, error := some "Invalid container ID" }),
    (["invalid tile"],
      { success := false, error := some "Invalid tile ID" }),
    (["jackpot fee"],
      { success := false, error := some "Jackpot fee too low" }) ]

/-- Fallback of the submission/receipt-wait phase: the revert-reason regex
(reclassified as already-processed when the reason contains "already"),
else the untruncated message. -/
def catchFallback (msg : String) : DestroyResult :=
  match findRevertReason msg with
  | some reason =>
    if containsSub (lowerStr reason) "already" then
      { success := false, error := some reason, alreadyDestroyed := true }
    else
      { success := false, error := some reason }
  | none => { success := false, error := some msg }

/- ### Mining loop orchestrator (miner module, `mineOnce` / `startMining`) -/

/-- Mining session statistics (`MiningStats` in `src/types.ts`). -/
structure MiningStats where
  blocksDestroyed : Nat
  blocksAlreadyDestroyed : Nat
  errors : Nat
  startTime : Int
  capabilityRefreshes : Nat
deriving DecidableEq, Repr

/-- The claim-relevant fields of `MinerContext`, together with the
module-level capability cache the iteration reads and writes (display-only
fields such as the grid and the balance snapshots are omitted). -/
structure MinerState where
  stats : MiningStats
  running : Bool
  currentBattery : Int
  maxBattery : Int
  lastError : String
  capCache : CapCache
deriving DecidableEq, Repr

/-- Callback invocations and chain requests emitted by one iteration, in
order (`MinerCallbacks` plus the battery-resync read). -/
inductive MinerEvent
  | blockDestroyed (containerId blockId : Nat) (txHash : String)
  | blockAlreadyDestroyed (containerId blockId : Nat)
  | error (msg : String)
  | capabilityRefresh (budget : Int)
  | batteryDepleted
  | resyncRequest
  | statsUpdate
deriving DecidableEq, Repr

/-- Occurrences of the battery-depleted callback in an event trace. -/
def countDepletedEvents : List MinerEvent → Nat
  | [] => 0
  | e :: rest =>
    (if e = MinerEvent.batteryDepleted then 1 else 0) + countDepletedEvents rest

/-- Occurrences of the `getLicenseStatus` battery-resync read in a trace. -/
def countResyncEvents : List MinerEvent → Nat
  | [] => 0
  | e :: rest =>
    (if e = MinerEvent.resyncRequest then 1 else 0) + countResyncEvents rest

/-- Handling of the `destroyBlock` result inside `mineOnce` (success /
already-destroyed / failure branches). `resync` is the outcome of the
`getLicenseStatus` read at the 25-block checkpoint: `some (cur, max)` when
the read succeeds (on-chain values are unsigned), `none` when it throws
(the error is swallowed). -/
def handleDestroyResult (s : MinerState) (containerId blockId : Nat)
    (r : DestroyResult) (resync : Option (Nat × Nat)) :
    MinerState × List MinerEvent :=
  if r.success then
    let s := { s with stats := { s.stats with
                 blocksDestroyed := s.stats.blocksDestroyed + 1 } }
    let s := if s.currentBattery > 0 then
               { s with currentBattery := s.currentBattery - 1 }
             else s
    if s.stats.blocksDestroyed % 25 == 0 then
      match resync with
      | some (cur, mx) =>
        ({ s with currentBattery := (cur : Int), maxBattery := (mx : Int) },
         [MinerEvent.blockDestroyed containerId blockId (r.txHash.getD ""),
          MinerEvent.resyncRequest])
      | none =>
        (s, [MinerEvent.blockDestroyed containerId blockId (r.txHash.getD ""),
             MinerEvent.resyncRequest])
    else
      (s, [MinerEvent.blockDestroyed containerId blockId (r.txHash.getD "")])
  else if r.alreadyDestroyed then
    ({ s with stats := { s.stats with
         blocksAlreadyDestroyed := s.stats.blocksAlreadyDestroyed + 1 } },
     [MinerEvent.blockAlreadyDestroyed containerId blockId])
  else
    let msg := match r.error with
               | some e => if e = "" then "Unknown error" else e
               | none => "Unknown error"
    let lowerError := lowerStr (r.error.getD "")
    let s := { s with stats := { s.stats with errors := s.stats.errors + 1 },
                      lastError := msg }
    let s := if containsSub lowerError "capability" || containsSub lowerError "budget" ||
                containsSub lowerError "exhausted" then
               { s with capCache := none }
             else s
    if containsSub lowerError "battery depleted" || containsSub lowerError "shift ended" then
      ({ s with running := false }, [MinerEvent.error msg, MinerEvent.batteryDepleted])
    else
      (s, [MinerEvent.error msg])

/-- The catch block at the bottom of `mineOnce`: count the error, record
it, notify, and clear the capability cache when the message looks
capability-related. The running flag is not touched. -/
def handleIterException (s : MinerState) (msg : String) :
    MinerState × List MinerEvent :=
  let s := { s with stats := { s.stats with errors := s.stats.errors + 1 },
                    lastError := msg }
  let lm := lowerStr msg
  let s := if containsSub lm "capability" || containsSub lm "budget" ||
              containsSub lm "exhausted" then
             { s with capCache := none }
           else s
  (s, [MinerEvent.error msg])

/-- The capability-acquisition step at the top of `mineOnce` when the fetch
(if one is needed) succeeds: update the cache via `getCapability` and, when
this was a refresh, bump the refresh counter and emit the refresh event
with the fresh budget. -/
def acqState (s : MinerState) (now : Int) (fresh : CapabilityBundle) :
    MinerState × List MinerEvent :=
  if isCacheValid s.capCache now 1 then
    ({ s with capCache := (getCapability s.capCache now fresh 1).cache }, [])
  else
    ({ s with capCache := (getCapability s.capCache now fresh 1).cache,
              stats := { s.stats with
                capabilityRefreshes := s.stats.capabilityRefreshes + 1 } },
     [MinerEvent.capabilityRefresh fresh.capability.budget])

/-- One mining iteration (`mineOnce`). Oracles: `now` the current time,
`containerId`/`blockId` the random target, `fetchErr` the error thrown by
the capability fetch when one is attempted (`none` = the fetch succeeds),
`fresh` the bundle a successful fetch returns, `destroy` the
`destroyBlock` result, `resync` the checkpoint `getLicenseStatus` outcome.
The stats callback fires at the end of both the normal and the exception
path. -/
def mineOnce (s : MinerState) (now : Int) (containerId blockId : Nat)
    (fetchErr : Option String) (fresh : CapabilityBundle)
    (destroy : DestroyResult) (resync : Option (Nat × Nat)) :
    MinerState × List MinerEvent :=
  if isCacheValid s.capCache now 1 = false then
    match fetchErr with
    | some msg =>
      let (s1, evs) := handleIterException s msg
      (s1, evs ++ [MinerEvent.statsUpdate])
    | none =>
      let (s1, aevs) := acqState s now fresh
      let (s2, evs) := handleDestroyResult s1 containerId blockId destroy resync
      (s2, aevs ++ evs ++ [MinerEvent.statsUpdate])
  else
    let (s1, aevs) := acqState s now fresh
    let (s2, evs) := handleDestroyResult s1 containerId blockId destroy resync
    (s2, aevs ++ evs ++ [MinerEvent.statsUpdate])

/-- Oracle inputs for one loop iteration. -/
structure IterInput where
  now : Int
  containerId : Nat
  blockId : Nat
  fetchErr : Option String
  fresh : CapabilityBundle
  destroy : DestroyResult
  resync : Option (Nat × Nat)
deriving DecidableEq, Repr

/-- The `while (ctx.running)` loop of `startMining`, driven by a finite
list of iteration oracles; returns the final state and the number of
iterations actually executed. -/
def runLoop (s : MinerState) : List IterInput → MinerState × Nat
  | [] => (s, 0)
  | i :: rest =>
    if s.running then
      let s1 := (mineOnce s i.now i.containerId i.blockId i.fetchErr i.fresh
                   i.destroy i.resync).1
      let (sf, n) := runLoop s1 rest
      (sf, n + 1)
    else (s, 0)

/-- Source `startMining`: set the running flag, then loop. -/
def startMining (s : MinerState) (inputs : List IterInput) : MinerState × Nat :=
  runLoop { s with running := true } inputs

example : findRevertReason "execution reverted with reason: \"Tile already destroyed\" extra"
    = some "Tile already destroyed" := by decide
example : findRevertReason "reverted with reason budget gone" = some "budget gone" := by decide
example : findRevertReason "it failed badly" = none := by decide
example : classifySimError "execution reverted: Already destroyed"
    = { success := false, error := some "Already destroyed", alreadyDestroyed := true } := by decide
example : classifySimError "invalid tile"
    = { success := false, error := some "Sim: invalid tile" } := by decide
example : classifyCatchError "invalid tile"
    = { success := false, error := some "Invalid tile ID" } := by decide

example : isCacheValid (some sampleEntry) 1000 1 = true := by decide
example : isCacheValid (some sampleEntry) 1971 1 = false := by decide
example : isCacheValid (some sampleEntry) 1000 6 = false := by decide
example : containsSub "capability budget too low" "budget" = true := by decide
example : containsSub "Invalid tile" "invalid tile" = false := by decide
example : containsSub (lowerStr "Invalid tile") "invalid tile" = true := by decide
example : decomposeContainer 123456 = ⟨0, 120, 144, 0⟩ := by decide

/- ### Helper lemmas -/

/-- Unfolded form of the cache validity check for a present entry. -/
lemma isCacheValid_some_iff (c : CachedCapability) (now cost : Int) :
    isCacheValid (some c) now cost = true ↔
      now < c.bundle.capability.expiresAt - 30 ∧ cost ≤ c.remainingBudget := by
  unfold isCacheValid
  by_cases h1 : now ≥ c.bundle.capability.expiresAt - 30 <;>
    by_cases h2 : c.remainingBudget < cost <;>
      simp [h1, h2] <;> omega

/-- Every arm of the dry-run classifier reports failure. -/
lemma classifySimError_not_success (m : String) :
    (classifySimError m).success = false := by
  simp only [classifySimError]
  repeat' split
  all_goals rfl

/- ### Claim theorems -/

/-- C4: `decomposeContainer` is a right-inverse of fixed-radix
reconstruction: for `containerId < CONTAINERS_PER_LAYER`, recombining
`(face, sector, region, container)` as
`((face*256 + sector)*256 + region)*4 + container` returns `containerId`. -/
theorem decomposeContainer_right_inverse (containerId : Nat)
    (h : containerId < CONTAINERS_PER_LAYER) :
    (((decomposeContainer containerId).face * 256 +
        (decomposeContainer containerId).sector) * 256 +
      (decomposeContainer containerId).region) * 4 +
      (decomposeContainer containerId).container = containerId := by
  simp only [decomposeContainer]
  omega

/-- Witness for C4 at `containerId = 123456`. -/
theorem decomposeContainer_right_inverse_witness :
    123456 < CONTAINERS_PER_LAYER ∧
    (((decomposeContainer 123456).face * 256 +
        (decomposeContainer 123456).sector) * 256 +
      (decomposeContainer 123456).region) * 4 +
      (decomposeContainer 123456).container = 123456 :=
  ⟨by decide, decomposeContainer_right_inverse 123456 (by decide)⟩

/-- C2: `getCapability(cost)` serves from the cache (no fetch, local budget
decremented by exactly `cost`) when the entry exists, `now` is more than 30
seconds before expiry, and `remainingBudget ≥ cost`; otherwise it performs
a fetch and installs a fresh entry with `remainingBudget = budget - cost`. -/
theorem getCapability_cache_protocol (cache : CapCache) (now : Int)
    (fresh : CapabilityBundle) (cost : Int) :
    (∀ c, cache = some c →
      (now < c.bundle.capability.expiresAt - 30 ∧ cost ≤ c.remainingBudget →
        getCapability cache now fresh cost =
          ⟨c.bundle, some { c with remainingBudget := c.remainingBudget - cost },
            false⟩) ∧
      (¬(now < c.bundle.capability.expiresAt - 30 ∧ cost ≤ c.remainingBudget) →
        getCapability cache now fresh cost =
          ⟨fresh, some ⟨fresh, fresh.capability.budget - cost, now⟩, true⟩)) ∧
    (cache = none →
      getCapability cache now fresh cost =
        ⟨fresh, some ⟨fresh, fresh.capability.budget - cost, now⟩, true⟩) := by
  constructor
  · rintro c rfl
    constructor
    · intro hvalid
      have hv : isCacheValid (some c) now cost = true :=
        (isCacheValid_some_iff c now cost).mpr hvalid
      simp [getCapability, hv]
    · intro hinvalid
      have hv : isCacheValid (some c) now cost = false := by
        rcases Bool.eq_false_or_eq_true (isCacheValid (some c) now cost) with h | h
        · exact absurd ((isCacheValid_some_iff c now cost).mp h) hinvalid
        · exact h
      simp [getCapability, hv]
  · rintro rfl
    rfl

/-- Witness for C2: a cache hit decrements the budget by the cost without a
fetch, a stale entry (too close to expiry) forces a fetch, and an empty
cache forces a fetch. -/
theorem getCapability_cache_protocol_witness :
    getCapability (some sampleEntry) 1000 sampleBundle2 1 =
      ⟨sampleEntry.bundle,
        some { sampleEntry with remainingBudget := sampleEntry.remainingBudget - 1 },
        false⟩ ∧
    getCapability (some sampleEntry) 1971 sampleBundle2 1 =
      ⟨sampleBundle2, some ⟨sampleBundle2, sampleBundle2.capability.budget - 1, 1971⟩,
        true⟩ ∧
    getCapability none 1000 sampleBundle2 1 =
      ⟨sampleBundle2, some ⟨sampleBundle2, sampleBundle2.capability.budget - 1, 1000⟩,
        true⟩ :=
  ⟨((getCapability_cache_protocol (some sampleEntry) 1000 sampleBundle2 1).1
      sampleEntry rfl).1 (by decide),
   ((getCapability_cache_protocol (some sampleEntry) 1971 sampleBundle2 1).1
      sampleEntry rfl).2 (by decide),
   (getCapability_cache_protocol none 1000 sampleBundle2 1).2 rfl⟩

/-- C8: after `clearCapabilityCache()` the next `getCapability` always
fetches, whatever the prior entry was, and `getRemainingBudget` returns 0
when no cache entry exists. -/
theorem invalidate_forces_fetch (cache : CapCache) (now : Int)
    (fresh : CapabilityBundle) (cost : Int) :
    (getCapability (clearCapabilityCache cache) now fresh cost).fetched = true ∧
    getRemainingBudget (clearCapabilityCache cache) = 0 ∧
    getRemainingBudget none = 0 :=
  ⟨rfl, rfl, rfl⟩

/-- C9: `needsCapabilityRefresh(cost)` returns true exactly when the next
`getCapability(cost)` on the same state would fetch, and it leaves the
cache state unchanged. -/
theorem needsRefresh_mirrors_acquire (cache : CapCache) (now : Int)
    (fresh : CapabilityBundle) (cost : Int) :
    ((needsCapabilityRefresh cache now cost).1 = true ↔
      (getCapability cache now fresh cost).fetched = true) ∧
    (needsCapabilityRefresh cache now cost).2 = cache := by
  refine ⟨?_, rfl⟩
  cases cache with
  | none => simp [needsCapabilityRefresh, getCapability, isCacheValid]
  | some c =>
    rcases Bool.eq_false_or_eq_true (isCacheValid (some c) now cost) with h | h <;>
      simp [needsCapabilityRefresh, getCapability, h]

/-- C10: `getCapability` with cost 0 on an empty cache fetches and leaves
the full budget as `remainingBudget`; on a cache hit with cost 0 it returns
the cached bundle with `remainingBudget` unchanged. -/
theorem zero_cost_probe (now : Int) (fresh : CapabilityBundle)
    (c : CachedCapability) :
    ((getCapability none now fresh 0).fetched = true ∧
      (getCapability none now fresh 0).cache =
        some ⟨fresh, fresh.capability.budget, now⟩) ∧
    (isCacheValid (some c) now 0 = true →
      getCapability (some c) now fresh 0 = ⟨c.bundle, some c, false⟩) := by
  constructor
  · exact ⟨rfl, by simp [getCapability]⟩
  · intro h
    simp [getCapability, h]

/-- Witness for C10: a valid entry served at cost 0 keeps its budget. -/
theorem zero_cost_probe_witness :
    isCacheValid (some sampleEntry) 1000 0 = true ∧
    getCapability (some sampleEntry) 1000 sampleBundle2 0 =
      ⟨sampleEntry.bundle, some sampleEntry, false⟩ :=
  ⟨by decide, (zero_cost_probe 1000 sampleBundle2 sampleEntry).2 (by decide)⟩

/-- C3: when the dry-run simulation throws, `destroyBlock` returns the
classified failure and the `writeContract` submission is never invoked
(the submission flag is false and the result ignores the submission and
receipt oracles). -/
theorem sim_failure_never_submits (msg : String) (submit : Except String String)
    (receipt : Except String ReceiptStatus) :
    destroyBlock (Except.error msg) submit receipt = (classifySimError msg, false) ∧
    (destroyBlock (Except.error msg) submit receipt).1.success = false := by
  refine ⟨rfl, ?_⟩
  exact classifySimError_not_success msg

/-- C1 counterexample: the two phases of `destroyBlock` do not share one
classification table. The message "invalid tile" is classified as
`InvalidTarget` by the submission/receipt-wait phase but falls through to
the unknown `Sim:`-prefixed outcome in the dry-run phase, so the phases
disagree on the typed outcome of the same failure message. -/
theorem classification_tables_differ_counterexample :
    classifySimError "invalid tile" ≠ classifyCatchError "invalid tile" ∧
    classifySimError "invalid tile" =
      { success := false, error := some "Sim: invalid tile" } ∧
    classifyCatchError "invalid tile" =
      { success := false, error := some "Invalid tile ID" } := by
  decide

/-- C1 (amended): each phase of `destroyBlock` classifies failure messages
by its own priority-ordered, case-insensitive substring table, first match
winning. The dry-run phase checks already destroyed / capability expired /
capability exhausted / budget too low / not authorized / invalid capability
signature / battery depleted and otherwise returns a truncated
`Sim:`-prefixed unknown outcome; the submission/receipt-wait phase checks
already destroyed or tile already / capability expired / capability
exhausted or budget / not authorized / invalid container / invalid tile /
jackpot fee, then the reverted-with-reason regex (reclassifying as
already-processed when the extracted reason contains "already"), and
otherwise returns the full message. The two tables differ. -/
theorem destroyBlock_phase_tables (msg : String) :
    classifySimError msg =
      tableClassify simFailureTable (simFallback msg) (lowerStr msg) ∧
    classifyCatchError msg =
      tableClassify catchFailureTable (catchFallback msg) (lowerStr msg) ∧
    ∃ m, classifySimError m ≠ classifyCatchError m := by
  refine ⟨?_, ?_, ⟨"invalid tile", by decide⟩⟩
  · simp [classifySimError, tableClassify, simFailureTable, simFallback]
  · simp [classifyCatchError, tableClassify, catchFailureTable, catchFallback]

/- ### Helper lemmas for the mining loop -/

/-- Depleted-event count distributes over concatenation. -/
lemma countDepletedEvents_append (a b : List MinerEvent) :
    countDepletedEvents (a ++ b) = countDepletedEvents a + countDepletedEvents b := by
  induction a with
  | nil => simp [countDepletedEvents]
  | cons e rest ih => simp [countDepletedEvents, ih]; omega

/-- Resync-event count distributes over concatenation. -/
lemma countResyncEvents_append (a b : List MinerEvent) :
    countResyncEvents (a ++ b) = countResyncEvents a + countResyncEvents b := by
  induction a with
  | nil => simp [countResyncEvents]
  | cons e rest ih => simp [countResyncEvents, ih]; omega

/-- The acquisition step only touches the capability cache and the refresh
counter: every other component of the state is preserved, and it emits
neither depletion nor resync events. -/
lemma acqState_frame (s : MinerState) (now : Int) (fresh : CapabilityBundle) :
    (acqState s now fresh).1.running = s.running ∧
    (acqState s now fresh).1.stats.errors = s.stats.errors ∧
    (acqState s now fresh).1.stats.blocksDestroyed = s.stats.blocksDestroyed ∧
    (acqState s now fresh).1.currentBattery = s.currentBattery ∧
    (acqState s now fresh).1.maxBattery = s.maxBattery ∧
    (acqState s now fresh).1.lastError = s.lastError ∧
    countDepletedEvents (acqState s now fresh).2 = 0 ∧
    countResyncEvents (acqState s now fresh).2 = 0 := by
  unfold acqState
  split <;> simp [countDepletedEvents, countResyncEvents]

/-- When the capability fetch succeeds (or is not needed), `mineOnce` is
acquisition followed by result handling, with the stats event at the end. -/
lemma mineOnce_fetch_ok (s : MinerState) (now : Int) (cid bid : Nat)
    (fresh : CapabilityBundle) (r : DestroyResult) (resync : Option (Nat × Nat)) :
    mineOnce s now cid bid none fresh r resync =
      ((handleDestroyResult (acqState s now fresh).1 cid bid r resync).1,
       (acqState s now fresh).2 ++
         (handleDestroyResult (acqState s now fresh).1 cid bid r resync).2 ++
         [MinerEvent.statsUpdate]) := by
  unfold mineOnce
  split <;> rfl

/-- When a fetch is needed and throws, `mineOnce` runs the exception
handler followed by the stats event. -/
lemma mineOnce_fetch_err (s : MinerState) (now : Int) (cid bid : Nat)
    (msg : String) (fresh : CapabilityBundle) (r : DestroyResult)
    (resync : Option (Nat × Nat)) (h : isCacheValid s.capCache now 1 = false) :
    mineOnce s now cid bid (some msg) fresh r resync =
      ((handleIterException s msg).1,
       (handleIterException s msg).2 ++ [MinerEvent.statsUpdate]) := by
  unfold mineOnce
  simp [h]

/-- Behaviour of the failure branch of the result handler: the error
counter goes up by one, battery fields are untouched, and the running flag
is cleared exactly when the failure message mentions battery depletion or
the shift ending (in which case the depletion callback fires once). -/
lemma handleDestroyResult_failure (s : MinerState) (cid bid : Nat)
    (r : DestroyResult) (resync : Option (Nat × Nat))
    (hs : r.success = false) (ha : r.alreadyDestroyed = false) :
    (handleDestroyResult s cid bid r resync).1.stats.errors = s.stats.errors + 1 ∧
    (handleDestroyResult s cid bid r resync).1.currentBattery = s.currentBattery ∧
    (handleDestroyResult s cid bid r resync).1.stats.blocksDestroyed =
      s.stats.blocksDestroyed ∧
    ((containsSub (lowerStr (r.error.getD "")) "battery depleted" ||
      containsSub (lowerStr (r.error.getD "")) "shift ended") = true →
        (handleDestroyResult s cid bid r resync).1.running = false ∧
        countDepletedEvents (handleDestroyResult s cid bid r resync).2 = 1) ∧
    ((containsSub (lowerStr (r.error.getD "")) "battery depleted" ||
      containsSub (lowerStr (r.error.getD "")) "shift ended") = false →
        (handleDestroyResult s cid bid r resync).1.running = s.running ∧
        countDepletedEvents (handleDestroyResult s cid bid r resync).2 = 0) := by
  by_cases hcap : (containsSub (lowerStr (r.error.getD "")) "capability" ||
      containsSub (lowerStr (r.error.getD "")) "budget" ||
      containsSub (lowerStr (r.error.getD "")) "exhausted") = true <;>
    by_cases hdep : (containsSub (lowerStr (r.error.getD "")) "battery depleted" ||
        containsSub (lowerStr (r.error.getD "")) "shift ended") = true <;>
      simp [handleDestroyResult, hs, ha, hcap, hdep, countDepletedEvents]

/-- Behaviour of the success branch of the result handler: the destroyed
counter goes up by one, the battery decrement floors at 0, the resync read
fires exactly at the 25-block checkpoint, a failed resync leaves the
decremented estimate, and a successful resync installs the chain values. -/
lemma handleDestroyResult_success (s : MinerState) (cid bid : Nat)
    (r : DestroyResult) (resync : Option (Nat × Nat)) (hs : r.success = true) :
    (handleDestroyResult s cid bid r resync).1.stats.blocksDestroyed =
      s.stats.blocksDestroyed + 1 ∧
    (0 ≤ s.currentBattery →
      0 ≤ (handleDestroyResult s cid bid r resync).1.currentBattery) ∧
    countResyncEvents (handleDestroyResult s cid bid r resync).2 =
      (if (s.stats.blocksDestroyed + 1) % 25 = 0 then 1 else 0) ∧
    (resync = none →
      (handleDestroyResult s cid bid r resync).1.currentBattery =
        (if s.currentBattery > 0 then s.currentBattery - 1 else s.currentBattery)) ∧
    (∀ cur mx, resync = some (cur, mx) → (s.stats.blocksDestroyed + 1) % 25 = 0 →
      (handleDestroyResult s cid bid r resync).1.currentBattery = (cur : Int) ∧
      (handleDestroyResult s cid bid r resync).1.maxBattery = (mx : Int)) := by
  rcases resync with _ | ⟨cur, mx⟩ <;>
    by_cases hchk : (s.stats.blocksDestroyed + 1) % 25 = 0 <;>
      by_cases hbat : s.currentBattery > 0 <;>
        simp [handleDestroyResult, hs, hchk, hbat, countResyncEvents] <;> omega

/-- Sample statistics for witness states. -/
def sampleStats : MiningStats :=
  ⟨3, 1, 2, 0, 1⟩

/-- A running miner state with a valid cached capability. -/
def sampleState : MinerState :=
  ⟨sampleStats, true, 4, 10, "", some sampleEntry⟩

/-- A running miner state with an empty capability cache. -/
def sampleStateNoCache : MinerState :=
  ⟨sampleStats, true, 4, 10, "", none⟩

/-- The depleted-battery failure result of scenario C. -/
def depletedResult : DestroyResult :=
  { success := false,
    error := some "execution reverted: Battery depleted - shift ended" }

/-- A generic failure result unrelated to battery or capability. -/
def otherFailResult : DestroyResult :=
  { success := false, error := some "rpc node hiccup" }

/-- A successful destroy result. -/
def successResult : DestroyResult :=
  { success := true, txHash := some "0xaaa" }

/-- A sample iteration oracle. -/
def sampleIter : IterInput :=
  ⟨1000, 0, 0, none, sampleBundle2, successResult, none⟩

/-- C5: when an iteration's failure message mentions "battery depleted" or
"shift ended", `mineOnce` counts exactly one error, fires the depletion
callback once, and clears the running flag, after which the loop executes
no further iterations; any other failure leaves the running flag as it
was, so the loop continues. -/
theorem depletion_stops_loop (s : MinerState) (now : Int) (cid bid : Nat)
    (fresh : CapabilityBundle) (r : DestroyResult) (resync : Option (Nat × Nat))
    (hs : r.success = false) (ha : r.alreadyDestroyed = false) :
    ((containsSub (lowerStr (r.error.getD "")) "battery depleted" ||
      containsSub (lowerStr (r.error.getD "")) "shift ended") = true →
      (mineOnce s now cid bid none fresh r resync).1.stats.errors =
        s.stats.errors + 1 ∧
      countDepletedEvents (mineOnce s now cid bid none fresh r resync).2 = 1 ∧
      (mineOnce s now cid bid none fresh r resync).1.running = false ∧
      ∀ inputs, runLoop (mineOnce s now cid bid none fresh r resync).1 inputs =
        ((mineOnce s now cid bid none fresh r resync).1, 0)) ∧
    ((containsSub (lowerStr (r.error.getD "")) "battery depleted" ||
      containsSub (lowerStr (r.error.getD "")) "shift ended") = false →
      (mineOnce s now cid bid none fresh r resync).1.stats.errors =
        s.stats.errors + 1 ∧
      (mineOnce s now cid bid none fresh r resync).1.running = s.running) := by
  rw [mineOnce_fetch_ok]
  obtain ⟨hrun, herr, hbd, hbat, hmax, hlast, hdep0, hres0⟩ := acqState_frame s now fresh
  obtain ⟨e1, e2, e3, hdept, hdepf⟩ :=
    handleDestroyResult_failure (acqState s now fresh).1 cid bid r resync hs ha
  constructor
  · intro hcond
    obtain ⟨hr, hc1⟩ := hdept hcond
    refine ⟨by rw [e1, herr], ?_, hr, ?_⟩
    · simp [countDepletedEvents_append, hdep0, hc1, countDepletedEvents]
    · intro inputs
      cases inputs with
      | nil => rfl
      | cons i rest => simp [runLoop, hr]
  · intro hcond
    exact ⟨by rw [e1, herr], by rw [(hdepf hcond).1, hrun]⟩

/-- Witness for C5: scenario C's message stops the loop after counting one
error and one depletion callback; a generic failure leaves the loop
running. -/
theorem depletion_stops_loop_witness :
    ((containsSub (lowerStr (depletedResult.error.getD "")) "battery depleted" ||
      containsSub (lowerStr (depletedResult.error.getD "")) "shift ended") = true ∧
     (mineOnce sampleState 1000 5 6 none sampleBundle2 depletedResult none).1.stats.errors =
       sampleState.stats.errors + 1 ∧
     countDepletedEvents
       (mineOnce sampleState 1000 5 6 none sampleBundle2 depletedResult none).2 = 1 ∧
     (mineOnce sampleState 1000 5 6 none sampleBundle2 depletedResult none).1.running = false ∧
     runLoop (mineOnce sampleState 1000 5 6 none sampleBundle2 depletedResult none).1
       [sampleIter] =
       ((mineOnce sampleState 1000 5 6 none sampleBundle2 depletedResult none).1, 0)) ∧
    ((containsSub (lowerStr (otherFailResult.error.getD "")) "battery depleted" ||
      containsSub (lowerStr (otherFailResult.error.getD "")) "shift ended") = false ∧
     (mineOnce sampleState 1000 5 6 none sampleBundle2 otherFailResult none).1.running =
       sampleState.running) := by
  constructor
  · have h := (depletion_stops_loop sampleState 1000 5 6 sampleBundle2 depletedResult
        none rfl rfl).1 (by decide)
    exact ⟨by decide, h.1, h.2.1, h.2.2.1, h.2.2.2 [sampleIter]⟩
  · exact ⟨by decide,
      ((depletion_stops_loop sampleState 1000 5 6 sampleBundle2 otherFailResult
          none rfl rfl).2 (by decide)).2⟩

/-- C6: a thrown error inside a mining iteration is caught at the
iteration boundary: `mineOnce` counts one error, records the message as
the last error, fires the error callback, clears the capability cache
exactly when the lowercased message mentions "capability", "budget" or
"exhausted", and leaves the running flag unchanged, so a running loop
still executes the next iteration. -/
theorem iteration_exception_contained (s : MinerState) (now : Int) (cid bid : Nat)
    (msg : String) (fresh : CapabilityBundle) (destroy : DestroyResult)
    (resync : Option (Nat × Nat)) (h : isCacheValid s.capCache now 1 = false) :
    (mineOnce s now cid bid (some msg) fresh destroy resync).1.stats.errors =
      s.stats.errors + 1 ∧
    (mineOnce s now cid bid (some msg) fresh destroy resync).1.lastError = msg ∧
    (mineOnce s now cid bid (some msg) fresh destroy resync).2 =
      [MinerEvent.error msg, MinerEvent.statsUpdate] ∧
    (mineOnce s now cid bid (some msg) fresh destroy resync).1.capCache =
      (if (containsSub (lowerStr msg) "capability" || containsSub (lowerStr msg) "budget" ||
           containsSub (lowerStr msg) "exhausted") = true then none else s.capCache) ∧
    (mineOnce s now cid bid (some msg) fresh destroy resync).1.running = s.running ∧
    (s.running = true → ∀ i rest,
      1 ≤ (runLoop (mineOnce s now cid bid (some msg) fresh destroy resync).1 (i :: rest)).2) := by
  rw [mineOnce_fetch_err s now cid bid msg fresh destroy resync h]
  by_cases hcap : (containsSub (lowerStr msg) "capability" ||
      containsSub (lowerStr msg) "budget" || containsSub (lowerStr msg) "exhausted") = true <;>
  · refine ⟨by simp [handleIterException, hcap], by simp [handleIterException, hcap], rfl,
      by simp [handleIterException, hcap], by simp [handleIterException, hcap], ?_⟩
    intro hrun i rest
    simp only [runLoop]
    have hrt : (handleIterException s msg).1.running = true := by
      simp [handleIterException, hcap, hrun]
    simp [hrt]

/-- Witness for C6: a network error on an empty cache is swallowed, keeps
the loop running, and does not clear an already-empty cache. -/
theorem iteration_exception_contained_witness :
    isCacheValid sampleStateNoCache.capCache 1000 1 = false ∧
    (mineOnce sampleStateNoCache 1000 2 3 (some "network timeout") sampleBundle2
        otherFailResult none).1.stats.errors = sampleStateNoCache.stats.errors + 1 ∧
    (mineOnce sampleStateNoCache 1000 2 3 (some "network timeout") sampleBundle2
        otherFailResult none).1.lastError = "network timeout" ∧
    (mineOnce sampleStateNoCache 1000 2 3 (some "network timeout") sampleBundle2
        otherFailResult none).1.running = sampleStateNoCache.running ∧
    1 ≤ (runLoop (mineOnce sampleStateNoCache 1000 2 3 (some "network timeout")
        sampleBundle2 otherFailResult none).1 [sampleIter]).2 := by
  have h := iteration_exception_contained sampleStateNoCache 1000 2 3
    "network timeout" sampleBundle2 otherFailResult none rfl
  exact ⟨rfl, h.1, h.2.1, h.2.2.2.2.1, h.2.2.2.2.2 rfl sampleIter []⟩

/-- C7: on a successful operation the destroyed counter increments, the
local battery estimate never drops below 0 (the decrement floors at 0),
the chain resync fires exactly when the cumulative destroyed-count is a
multiple of 25 (and at no other success), a failed resync is swallowed
leaving the decremented estimate (so nothing but the resync raises the
estimate), and a successful resync installs the chain values. -/
theorem battery_resync_protocol (s : MinerState) (now : Int) (cid bid : Nat)
    (fresh : CapabilityBundle) (r : DestroyResult) (resync : Option (Nat × Nat))
    (hs : r.success = true) :
    (mineOnce s now cid bid none fresh r resync).1.stats.blocksDestroyed =
      s.stats.blocksDestroyed + 1 ∧
    (0 ≤ s.currentBattery →
      0 ≤ (mineOnce s now cid bid none fresh r resync).1.currentBattery) ∧
    countResyncEvents (mineOnce s now cid bid none fresh r resync).2 =
      (if (s.stats.blocksDestroyed + 1) % 25 = 0 then 1 else 0) ∧
    (resync = none →
      (mineOnce s now cid bid none fresh r resync).1.currentBattery =
        (if s.currentBattery > 0 then s.currentBattery - 1 else s.currentBattery)) ∧
    (∀ cur mx, resync = some (cur, mx) → (s.stats.blocksDestroyed + 1) % 25 = 0 →
      (mineOnce s now cid bid none fresh r resync).1.currentBattery = (cur : Int) ∧
      (mineOnce s now cid bid none fresh r resync).1.maxBattery = (mx : Int)) := by
  rw [mineOnce_fetch_ok]
  obtain ⟨hrun, herr, hbd, hbat, hmax, hlast, hdep0, hres0⟩ := acqState_frame s now fresh
  obtain ⟨g1, g2, g3, g4, g5⟩ :=
    handleDestroyResult_success (acqState s now fresh).1 cid bid r resync hs
  refine ⟨by rw [g1, hbd], ?_, ?_, ?_, ?_⟩
  · intro hnn
    exact g2 (by rw [hbat]; exact hnn)
  · rw [countResyncEvents_append, countResyncEvents_append, hres0, g3, hbd]
    simp [countResyncEvents]
  · intro hrs
    rw [g4 hrs, hbat]
  · intro cur mx hrs hchk
    have := g5 cur mx hrs (by rw [hbd]; exact hchk)
    exact ⟨this.1, this.2⟩

/-- Witness for C7: the 25th success triggers the resync read; a swallowed
resync error leaves the decremented estimate. -/
theorem battery_resync_protocol_witness :
    successResult.success = true ∧
    (mineOnce ⟨⟨24, 0, 0, 0, 0⟩, true, 4, 10, "", some sampleEntry⟩ 1000 5 6 none
        sampleBundle2 successResult none).1.stats.blocksDestroyed = 25 ∧
    countResyncEvents (mineOnce ⟨⟨24, 0, 0, 0, 0⟩, true, 4, 10, "", some sampleEntry⟩
        1000 5 6 none sampleBundle2 successResult none).2 = 1 ∧
    (mineOnce ⟨⟨24, 0, 0, 0, 0⟩, true, 4, 10, "", some sampleEntry⟩ 1000 5 6 none
        sampleBundle2 successResult none).1.currentBattery = 3 := by
  have h := battery_resync_protocol ⟨⟨24, 0, 0, 0, 0⟩, true, 4, 10, "", some sampleEntry⟩
    1000 5 6 sampleBundle2 successResult none rfl
  refine ⟨rfl, h.1, ?_, ?_⟩
  · rw [h.2.2.1]
    decide
  · rw [h.2.2.2.1 rfl]
    decide
